import Mathlib

/-!
Verification development for the "can-i-afford-it" affordability engine.

JavaScript numbers are shallowly embedded as `JsNum`: NaN, +∞, −∞, or a
finite value modelled as an exact rational.  Comparison operators follow
JS semantics (every comparison involving NaN is false).  `Math.round` is
`⌊x + 1/2⌋` (JS rounds half toward +∞).

Where a property depends on the binary64 representation of a decimal
literal (the `9.95` / `10.04` formatting boundary), the literal is embedded
as the exact rational value of its nearest IEEE-754 double — a multiple of
`2⁻⁴⁹` within half an ulp (`2⁻⁵⁰`) of the decimal — so the model evaluates
the very number the program holds at runtime.
-/

/-- Shallow embedding of a JavaScript `number`: NaN, ±infinity, or a finite
value (modelled exactly as a rational). -/
inductive JsNum where
  | nan
  | posInf
  | negInf
  | fin (q : ℚ)
deriving DecidableEq

/-- `Number.isFinite`. -/
def jsIsFinite : JsNum → Bool
  | JsNum.fin _ => true
  | _ => false

/-- JS `<` (false whenever either side is NaN). -/
def jsLt : JsNum → JsNum → Bool
  | JsNum.fin a, JsNum.fin b => decide (a < b)
  | JsNum.fin _, JsNum.posInf => true
  | JsNum.negInf, JsNum.fin _ => true
  | JsNum.negInf, JsNum.posInf => true
  | _, _ => false

/-- JS `<=` (false whenever either side is NaN). -/
def jsLe : JsNum → JsNum → Bool
  | JsNum.fin a, JsNum.fin b => decide (a ≤ b)
  | JsNum.fin _, JsNum.posInf => true
  | JsNum.negInf, JsNum.nan => false
  | JsNum.negInf, _ => true
  | JsNum.posInf, JsNum.posInf => true
  | _, _ => false

/-- JS `a - b` on embedded numbers. -/
def jsSub : JsNum → JsNum → JsNum
  | JsNum.fin a, JsNum.fin b => JsNum.fin (a - b)
  | JsNum.fin _, JsNum.posInf => JsNum.negInf
  | JsNum.fin _, JsNum.negInf => JsNum.posInf
  | JsNum.posInf, JsNum.fin _ => JsNum.posInf
  | JsNum.posInf, JsNum.negInf => JsNum.posInf
  | JsNum.negInf, JsNum.fin _ => JsNum.negInf
  | JsNum.negInf, JsNum.posInf => JsNum.negInf
  | _, _ => JsNum.nan

/-- JS `a / b` on embedded numbers (division by zero yields ±∞ or NaN as in
IEEE; the model has no signed zero). -/
def jsDiv : JsNum → JsNum → JsNum
  | JsNum.fin a, JsNum.fin b =>
      if b = 0 then
        (if a = 0 then JsNum.nan else if 0 < a then JsNum.posInf else JsNum.negInf)
      else JsNum.fin (a / b)
  | JsNum.fin _, JsNum.posInf => JsNum.fin 0
  | JsNum.fin _, JsNum.negInf => JsNum.fin 0
  | JsNum.posInf, JsNum.fin b => if 0 ≤ b then JsNum.posInf else JsNum.negInf
  | JsNum.negInf, JsNum.fin b => if 0 ≤ b then JsNum.negInf else JsNum.posInf
  | _, _ => JsNum.nan

/-- `Math.round` on a finite value: JS rounds half toward +∞, i.e. `⌊q + 1/2⌋`
(written with the computable `Rat.floor`). -/
def jsRound (q : ℚ) : ℤ := Rat.floor (q + 1 / 2)

/- ---------------------------------------------------------------------
src/lib/money.ts
--------------------------------------------------------------------- -/

/-- `MoneyHealthZoneKey` from `src/lib/money.ts`. -/
inductive MoneyHealthZoneKey where
  | healthy
  | tight
  | risky
deriving DecidableEq

/-- `MoneyHealthZone & { threshold }` entries of the `ZONES` table in
`src/lib/money.ts`. -/
structure ZoneDef where
  key : MoneyHealthZoneKey
  label : String
  description : String
  accentClass : String
  barClass : String
  threshold : ℚ
deriving DecidableEq

/-- `ZONES[0]` in `src/lib/money.ts`. -/
def zoneHealthy : ZoneDef :=
  { key := MoneyHealthZoneKey.healthy
    label := "Healthy"
    description := "You can comfortably afford this purchase and will keep a strong buffer."
    accentClass := "text-emerald-600"
    barClass := "bg-emerald-500"
    threshold := 2 }

/-- `ZONES[1]` in `src/lib/money.ts`. -/
def zoneTight : ZoneDef :=
  { key := MoneyHealthZoneKey.tight
    label := "Tight"
    description := "You\x27re close — make a plan before you swipe."
    accentClass := "text-amber-500"
    barClass := "bg-amber-400"
    threshold := 1 }

/-- `ZONES[2]` in `src/lib/money.ts`. -/
def zoneRisky : ZoneDef :=
  { key := MoneyHealthZoneKey.risky
    label := "Risky"
    description := "Press pause — let\x27s build your cushion first."
    accentClass := "text-rose-500"
    barClass := "bg-rose-500"
    threshold := 0 }

/-- The `ZONES` constant table. -/
def ZONES : List ZoneDef := [zoneHealthy, zoneTight, zoneRisky]

/-- `getMoneyHealthZone` from `src/lib/money.ts`: returns `ZONES[0]` when
`cushionMonths > ZONES[0].threshold`, `ZONES[1]` when
`cushionMonths >= ZONES[1].threshold`, else `ZONES[2]`. -/
def getMoneyHealthZone (cushionMonths : JsNum) : ZoneDef :=
  if jsLt (JsNum.fin zoneHealthy.threshold) cushionMonths then zoneHealthy
  else if jsLe (JsNum.fin zoneTight.threshold) cushionMonths then zoneTight
  else zoneRisky

/-- `clampMeterValue` from `src/lib/money.ts`: NaN / non-finite inputs map to
0; otherwise `Math.round((Math.max(0, Math.min(value, 3)) / 3) * 100)`. -/
def clampMeterValue : JsNum → ℤ
  | JsNum.fin q => jsRound (max 0 (min q 3) / 3 * 100)
  | _ => 0

/-- Digit grouping: insert a comma after every three characters of the
(reversed) digit list, as `Intl.NumberFormat("en-US")` groups thousands. -/
def group3 : List Char → List Char
  | [] => []
  | [a] => [a]
  | [a, b] => [a, b]
  | [a, b, c] => [a, b, c]
  | a :: b :: c :: rest => a :: b :: c :: ',' :: group3 rest

/-- Render a natural number with en-US thousands separators. -/
def groupDigits (n : ℕ) : String :=
  String.mk ((group3 (toString n).data.reverse).reverse)

/-- The en-US USD rendering (`maximumFractionDigits: 0`) of an integer, as
produced by the module-level `currencyFormatter` in `src/lib/money.ts`. -/
def currencyFormat (n : ℤ) : String :=
  if n < 0 then "-$" ++ groupDigits n.natAbs else "$" ++ groupDigits n.toNat

/-- `formatCurrency` from `src/lib/money.ts`: non-finite input yields `"$0"`,
otherwise `currencyFormatter.format(Math.round(value))`. -/
def formatCurrency : JsNum → String
  | JsNum.fin q => currencyFormat (jsRound q)
  | _ => "$0"

/-- `Number.prototype.toFixed(1)` for arguments in `[0, 10)` (the only range
`formatCushionMonths` uses it on): per the ECMAScript spec, the integer `n`
with `n / 10` closest to the exact mathematical value of the argument, ties
to the larger `n`, rendered with one decimal digit.  The argument passed in
must be the exact rational value of the runtime double (for a double, the
tie case cannot occur, since a tie would need denominator 20). -/
def toFixedOneNN (q : ℚ) : String :=
  toString ((Rat.floor (10 * q + 1 / 2)).toNat / 10) ++ "." ++
    toString ((Rat.floor (10 * q + 1 / 2)).toNat % 10)

/-- `formatCushionMonths` from `src/lib/money.ts`: non-finite or negative
input yields `"0"`; a value ≥ 10 yields `Math.round(value).toString()`;
otherwise `value.toFixed(1)`. -/
def formatCushionMonths : JsNum → String
  | JsNum.fin q =>
      if q < 0 then "0"
      else if 10 ≤ q then toString (jsRound q)
      else toFixedOneNN q
  | _ => "0"

/-- The exact rational value of the IEEE-754 binary64 double nearest the
literal `9.95`: `5601352036542054 × 2⁻⁴⁹ = 9.9499999999999992894…`, which is
what the program actually passes to `formatCushionMonths`. -/
def double995 : ℚ := 5601352036542054 / 562949953421312

/-- The exact rational value of the IEEE-754 binary64 double nearest the
literal `10.04`: `5652017532349972 × 2⁻⁴⁹ = 10.0399999999999991…`. -/
def double1004 : ℚ := 5652017532349972 / 562949953421312

/- ---------------------------------------------------------------------
src/components/PlannerApp.tsx
--------------------------------------------------------------------- -/

/-- `PlannerInputs` (shape declared in `@/lib/planner`, used throughout
`src/components/PlannerApp.tsx`). -/
structure PlannerInputs where
  cashBalance : JsNum
  monthlyIncome : JsNum
  monthlyExpenses : JsNum
  purchaseCost : JsNum
deriving DecidableEq

/-- The derived statistics computed by the `stats` memo in `PlannerApp`. -/
structure DerivedStats where
  projectedCash : JsNum
  monthlyNet : JsNum
  cushionMonths : JsNum
deriving DecidableEq

/-- The `stats` memo of `PlannerApp` (first variant, lines 97–110):
`projectedCash = cashBalance - purchaseCost`,
`monthlyNet = monthlyIncome - monthlyExpenses`,
`cushionMonths = monthlyExpenses > 0 ? (cashBalance - purchaseCost) / monthlyExpenses : 0`. -/
def stats (values : PlannerInputs) : DerivedStats :=
  { projectedCash := jsSub values.cashBalance values.purchaseCost
    monthlyNet := jsSub values.monthlyIncome values.monthlyExpenses
    cushionMonths :=
      if jsLt (JsNum.fin 0) values.monthlyExpenses then
        jsDiv (jsSub values.cashBalance values.purchaseCost) values.monthlyExpenses
      else JsNum.fin 0 }

/-- The `stats` memo of `PlannerApp` (second variant, lines 634–652): same as
`stats` but afterwards, if `cushionMonths` is not finite or is NaN, it is
replaced by `0`. -/
def statsGuarded (values : PlannerInputs) : DerivedStats :=
  let base := stats values
  { base with
    cushionMonths :=
      if jsIsFinite base.cushionMonths then base.cushionMonths else JsNum.fin 0 }

/-- `handleInputChange` field update in `PlannerApp` (lines 135–140): a NaN
next value is stored as 0, anything else (including negatives) unchanged. -/
def handleInputChangeValue (nextValue : JsNum) : JsNum :=
  if nextValue = JsNum.nan then JsNum.fin 0 else nextValue

/-- Modelled from the spec: `normalizePlannerInputs` lives in `@/lib/planner`,
which is imported by the subscribe-route variants but absent from the sources;
spec §4.1 (lenient policy): each field is floored at 0 — negative values
become 0, non-finite values are substituted by 0 — and no upper bound is
enforced. -/
def normalizeField : JsNum → JsNum
  | JsNum.fin q => JsNum.fin (max 0 q)
  | _ => JsNum.fin 0

/-- Modelled from the spec: `normalizeInputs` applies the lenient
normalization to all four fields of the raw `PlannerInputs`. -/
def normalizeInputs (raw : PlannerInputs) : PlannerInputs :=
  { cashBalance := normalizeField raw.cashBalance
    monthlyIncome := normalizeField raw.monthlyIncome
    monthlyExpenses := normalizeField raw.monthlyExpenses
    purchaseCost := normalizeField raw.purchaseCost }

/- ---------------------------------------------------------------------
Email validation (EMAIL_REGEX in PlannerApp.tsx) and the subscribe route
(src/app/api/subscribe/route.ts)
--------------------------------------------------------------------- -/

/-- Characters the JS regex class `\s` matches (ASCII portion). -/
def isJsWs (c : Char) : Bool :=
  c = ' ' || c = '\t' || c = '\n' || c = '\r' || c = '\x0b' || c = '\x0c'

/-- Split a character list at every occurrence of the separator `c`. -/
def splitChar (c : Char) : List Char → List (List Char)
  | [] => [[]]
  | x :: xs =>
      match splitChar c xs with
      | [] => [[]]
      | y :: ys => if x = c then [] :: y :: ys else (x :: y) :: ys

/-- The test of `EMAIL_REGEX = /^[^@\s]+@[^@\s]+\.[^@\s]+$/`
(`src/components/PlannerApp.tsx`, line 81): exactly one `'@'`, splitting the
string into a nonempty local part and a nonempty domain, neither containing
whitespace, where the domain has a `'.'` that is neither its first nor its
last character (the two `[^@\s]+` domain pieces may themselves contain dots). -/
def emailRegexTest (s : String) : Bool :=
  match splitChar '@' s.data with
  | [lp, dp] =>
      !lp.isEmpty && lp.all (fun c => !isJsWs c) &&
      !dp.isEmpty && dp.all (fun c => !isJsWs c) &&
      (match dp with
       | [] => false
       | _ :: t => t.dropLast.contains '.')
  | _ => false

/-- Drop leading JS whitespace from a character list. -/
def dropWsLeft : List Char → List Char
  | [] => []
  | x :: xs => if isJsWs x then dropWsLeft xs else x :: xs

/-- `String.prototype.trim`: strip whitespace from both ends. -/
def jsTrim (s : String) : String :=
  String.mk ((dropWsLeft (dropWsLeft s.data).reverse).reverse)

/-- The capture-form gate `captureIsValid` in `PlannerApp`: name trimmed
nonempty, email trimmed nonempty and matching `EMAIL_REGEX`. -/
def captureIsValid (name email : String) : Bool :=
  !((jsTrim name).isEmpty) && (!((jsTrim email).isEmpty) && emailRegexTest (jsTrim email))

/-- A JSON value as relevant to the subscribe route's `payload.email` field. -/
inductive JsonVal where
  | jstr (s : String)
  | jnum (q : ℚ)
  | jbool (b : Bool)
  | jnull
deriving DecidableEq

/-- The email guard of `POST` in `src/app/api/subscribe/route.ts` (lines
33–35): `if (!payload.email || typeof payload.email !== "string")` rejects —
so the request passes the guard iff `payload.email` is a nonempty string. -/
def emailGuardPasses : Option JsonVal → Bool
  | some (JsonVal.jstr s) => !s.isEmpty
  | _ => false

/-- Environment of the subscribe route: the ConvertKit configuration read
from `process.env`. -/
structure SubscribeEnv where
  apiKey : Option String
  formId : Option String
deriving DecidableEq

/-- JS truthiness of an optional string env var (`undefined` and `""` are
falsy). -/
def envTruthy : Option String → Bool
  | some s => !s.isEmpty
  | none => false

/-- Outcome of the `POST` handler in `src/app/api/subscribe/route.ts` after a
successfully parsed JSON body: the email guard returns 400, the missing
configuration check returns 500, and otherwise the handler reaches the
outbound `fetch` to ConvertKit. -/
inductive PostOutcome where
  | badRequest (msg : String)
  | serverError (msg : String)
  | outboundCall
deriving DecidableEq

/-- The decision sequence of `POST` (lines 23–68): email guard, then
configuration check, then the network call. -/
def postOutcome (email : Option JsonVal) (env : SubscribeEnv) : PostOutcome :=
  if !(emailGuardPasses email) then PostOutcome.badRequest "Email is required."
  else if !(envTruthy env.apiKey) || !(envTruthy env.formId) then
    PostOutcome.serverError
      "ConvertKit is not configured. Add CONVERTKIT_API_KEY and CONVERTKIT_FORM_ID."
  else PostOutcome.outboundCall

/- ---------------------------------------------------------------------
Helper lemmas
--------------------------------------------------------------------- -/

/-- `Rat.floor` agrees with the `FloorRing` floor. -/
theorem ratFloor_eq_floor (q : ℚ) : Rat.floor q = ⌊q⌋ := by
  rw [Rat.floor_def', Rat.floor_def]

/-- `jsRound` as a `FloorRing` floor. -/
theorem jsRound_eq_floor (q : ℚ) : jsRound q = ⌊q + 1 / 2⌋ := by
  rw [jsRound, ratFloor_eq_floor]

/-- Evaluate `Rat.floor` from bracketing bounds. -/
theorem ratFloor_eq_of (q : ℚ) (n : ℤ) (h1 : (n : ℚ) ≤ q) (h2 : q < n + 1) :
    Rat.floor q = n := by
  rw [ratFloor_eq_floor]
  exact Int.floor_eq_iff.mpr ⟨h1, h2⟩

/-- Evaluate `jsRound` from bracketing bounds. -/
theorem jsRound_eq_of (q : ℚ) (n : ℤ) (h1 : (n : ℚ) ≤ q + 1 / 2) (h2 : q + 1 / 2 < n + 1) :
    jsRound q = n :=
  ratFloor_eq_of _ n h1 h2


/- ---------------------------------------------------------------------
Claim theorems
--------------------------------------------------------------------- -/

/-- C1: `getMoneyHealthZone` is total over finite values and partitions the
line into three contiguous intervals: `(2, ∞) → Healthy`, `[1, 2] → Tight`,
`(−∞, 1) → Risky`; in particular `2 → Tight`, `1 → Tight`, `0.999 → Risky`. -/
theorem getMoneyHealthZone_partition (q : ℚ) :
    (2 < q → (getMoneyHealthZone (JsNum.fin q)).key = MoneyHealthZoneKey.healthy)
    ∧ (1 ≤ q → q ≤ 2 → (getMoneyHealthZone (JsNum.fin q)).key = MoneyHealthZoneKey.tight)
    ∧ (q < 1 → (getMoneyHealthZone (JsNum.fin q)).key = MoneyHealthZoneKey.risky)
    ∧ (getMoneyHealthZone (JsNum.fin 2)).key = MoneyHealthZoneKey.tight
    ∧ (getMoneyHealthZone (JsNum.fin 1)).key = MoneyHealthZoneKey.tight
    ∧ (getMoneyHealthZone (JsNum.fin (999 / 1000))).key = MoneyHealthZoneKey.risky := by
  refine ⟨fun h => ?_, fun h1 h2 => ?_, fun h => ?_, by decide, by decide, ?_⟩
  · simp [getMoneyHealthZone, jsLt, zoneHealthy, h]
  · have hn : ¬ (2 : ℚ) < q := not_lt.mpr h2
    simp [getMoneyHealthZone, jsLt, jsLe, zoneHealthy, zoneTight, hn, h1]
  · have hn1 : ¬ (2 : ℚ) < q := by linarith
    have hn2 : ¬ (1 : ℚ) ≤ q := not_le.mpr h
    simp [getMoneyHealthZone, jsLt, jsLe, zoneHealthy, zoneTight, zoneRisky, hn1, hn2]
  · have hn1 : ¬ (2 : ℚ) < 999 / 1000 := by norm_num
    have hn2 : ¬ (1 : ℚ) ≤ 999 / 1000 := by norm_num
    simp [getMoneyHealthZone, jsLt, jsLe, zoneHealthy, zoneTight, zoneRisky, hn1, hn2]

/-- Closed instance of `getMoneyHealthZone_partition` at concrete inputs. -/
theorem getMoneyHealthZone_partition_witness :
    ((2 : ℚ) < 3 ∧ (getMoneyHealthZone (JsNum.fin 3)).key = MoneyHealthZoneKey.healthy)
    ∧ ((0 : ℚ) < 1 ∧ (getMoneyHealthZone (JsNum.fin 0)).key = MoneyHealthZoneKey.risky) :=
  ⟨⟨by norm_num, (getMoneyHealthZone_partition 3).1 (by norm_num)⟩,
   ⟨by norm_num, (getMoneyHealthZone_partition 0).2.2.1 (by norm_num)⟩⟩

/-- C3: `clampMeterValue` returns an integer in `[0, 100]` for every input;
NaN and ±∞ map to 0; a finite value maps to
`round((max(0, min(x, 3)) / 3) * 100)`; and `0 → 0`, `1.5 → 50`, `3 → 100`,
`6 → 100`. -/
theorem clampMeterValue_spec :
    (∀ v : JsNum, 0 ≤ clampMeterValue v ∧ clampMeterValue v ≤ 100)
    ∧ clampMeterValue JsNum.nan = 0
    ∧ clampMeterValue JsNum.posInf = 0
    ∧ clampMeterValue JsNum.negInf = 0
    ∧ (∀ q : ℚ, clampMeterValue (JsNum.fin q) = ⌊max 0 (min q 3) / 3 * 100 + 1 / 2⌋)
    ∧ clampMeterValue (JsNum.fin 0) = 0
    ∧ clampMeterValue (JsNum.fin (3 / 2)) = 50
    ∧ clampMeterValue (JsNum.fin 3) = 100
    ∧ clampMeterValue (JsNum.fin 6) = 100 := by
  refine ⟨?_, rfl, rfl, rfl, ?_, ?_, ?_, ?_, ?_⟩
  · intro v
    cases v with
    | nan => norm_num [clampMeterValue]
    | posInf => norm_num [clampMeterValue]
    | negInf => norm_num [clampMeterValue]
    | fin q =>
        have h0 : (0 : ℚ) ≤ max 0 (min q 3) := le_max_left 0 _
        have h3 : max 0 (min q 3) ≤ 3 := max_le (by norm_num) (min_le_right q 3)
        have hv : clampMeterValue (JsNum.fin q) = ⌊max 0 (min q 3) / 3 * 100 + 1 / 2⌋ := by
          rw [clampMeterValue, jsRound_eq_floor]
        rw [hv]
        constructor
        · exact Int.le_floor.mpr (by push_cast; linarith)
        · have h101 : ⌊max 0 (min q 3) / 3 * 100 + 1 / 2⌋ < 101 :=
            Int.floor_lt.mpr (by push_cast; linarith)
          omega
  · intro q
    rw [clampMeterValue, jsRound_eq_floor]
  · rw [clampMeterValue, show max (0 : ℚ) (min 0 3) = 0 by norm_num,
        jsRound_eq_of (0 / 3 * 100) 0 (by norm_num) (by norm_num)]
  · rw [clampMeterValue, show max (0 : ℚ) (min (3 / 2) 3) = 3 / 2 by norm_num,
        jsRound_eq_of (3 / 2 / 3 * 100) 50 (by norm_num) (by norm_num)]
  · rw [clampMeterValue, show max (0 : ℚ) (min 3 3) = 3 by norm_num,
        jsRound_eq_of (3 / 3 * 100) 100 (by norm_num) (by norm_num)]
  · rw [clampMeterValue, show max (0 : ℚ) (min 6 3) = 3 by norm_num,
        jsRound_eq_of (3 / 3 * 100) 100 (by norm_num) (by norm_num)]

/-- C10: `clampMeterValue` is monotone nondecreasing on finite (non-NaN)
inputs: the displayed meter never decreases as `cushionMonths` increases. -/
theorem clampMeterValue_monotone (q r : ℚ) (h : q ≤ r) :
    clampMeterValue (JsNum.fin q) ≤ clampMeterValue (JsNum.fin r) := by
  have hb : max 0 (min q 3) ≤ max 0 (min r 3) :=
    max_le_max (le_refl 0) (min_le_min h (le_refl 3))
  have he : max 0 (min q 3) / 3 * 100 + 1 / 2 ≤ max 0 (min r 3) / 3 * 100 + 1 / 2 := by
    linarith
  rw [clampMeterValue, clampMeterValue, jsRound_eq_floor, jsRound_eq_floor]
  exact Int.floor_le_floor he

/-- Closed instance of `clampMeterValue_monotone` at concrete inputs. -/
theorem clampMeterValue_monotone_witness :
    (1 : ℚ) ≤ 2 ∧ clampMeterValue (JsNum.fin 1) ≤ clampMeterValue (JsNum.fin 2) :=
  ⟨by norm_num, clampMeterValue_monotone 1 2 (by norm_num)⟩

/-- C7: `formatCushionMonths` maps non-finite and negative inputs to `"0"`;
a finite value ≥ 10 to its JS-rounded integer string; and a finite value in
`[0, 10)` to a one-decimal rendering (the `toFixed(1)` digits). -/
theorem formatCushionMonths_spec (q : ℚ) :
    formatCushionMonths JsNum.nan = "0"
    ∧ formatCushionMonths JsNum.posInf = "0"
    ∧ formatCushionMonths JsNum.negInf = "0"
    ∧ (q < 0 → formatCushionMonths (JsNum.fin q) = "0")
    ∧ (10 ≤ q → formatCushionMonths (JsNum.fin q) = toString ⌊q + 1 / 2⌋)
    ∧ (0 ≤ q → q < 10 →
        formatCushionMonths (JsNum.fin q) =
          toString ((⌊10 * q + 1 / 2⌋).toNat / 10) ++ "." ++
            toString ((⌊10 * q + 1 / 2⌋).toNat % 10)) := by
  refine ⟨rfl, rfl, rfl, fun h => ?_, fun h => ?_, fun h0 h10 => ?_⟩
  · rw [formatCushionMonths, if_pos h]
  · rw [formatCushionMonths, if_neg (not_lt.mpr (by linarith)), if_pos h,
        jsRound_eq_floor]
  · rw [formatCushionMonths, if_neg (not_lt.mpr h0), if_neg (not_le.mpr h10),
        toFixedOneNN, ratFloor_eq_floor]

/-- Closed instance of `formatCushionMonths_spec` at concrete inputs. -/
theorem formatCushionMonths_spec_witness :
    ((10 : ℚ) ≤ 12 ∧ formatCushionMonths (JsNum.fin 12) = toString ⌊(12 : ℚ) + 1 / 2⌋)
    ∧ ((0 : ℚ) ≤ 1 ∧ (1 : ℚ) < 10 ∧
        formatCushionMonths (JsNum.fin 1) =
          toString ((⌊10 * (1 : ℚ) + 1 / 2⌋).toNat / 10) ++ "." ++
            toString ((⌊10 * (1 : ℚ) + 1 / 2⌋).toNat % 10)) :=
  ⟨⟨by norm_num, (formatCushionMonths_spec 12).2.2.2.2.1 (by norm_num)⟩,
   ⟨by norm_num, by norm_num,
    (formatCushionMonths_spec 1).2.2.2.2.2 (by norm_num) (by norm_num)⟩⟩

/-- C4 counterexample: the program's value for the literal `9.95` is the
binary64 double `double995`, a multiple of `2⁻⁴⁹` lying within half an ulp
(`2⁻⁵⁰`) of `199/20` — and strictly below it, hence below the `toFixed(1)`
tie — so `formatCushionMonths` renders it `"9.9"`, not the claimed `"10.0"`. -/
theorem formatCushionMonths_995_not_ten :
    double995 * 2 ^ 49 = 5601352036542054
    ∧ |(199 / 20 : ℚ) - double995| < 1 / 2 ^ 50
    ∧ double995 < 199 / 20
    ∧ formatCushionMonths (JsNum.fin double995) = "9.9"
    ∧ formatCushionMonths (JsNum.fin double995) ≠ "10.0" := by
  have h99 : formatCushionMonths (JsNum.fin double995) = "9.9" := by
    rw [formatCushionMonths, if_neg (by norm_num [double995]),
        if_neg (by norm_num [double995]), toFixedOneNN,
        ratFloor_eq_of (10 * double995 + 1 / 2) 99 (by norm_num [double995])
          (by norm_num [double995])]
    decide
  refine ⟨by norm_num [double995], ?_, by norm_num [double995], h99, ?_⟩
  · rw [abs_sub_lt_iff]
    constructor <;> norm_num [double995]
  · rw [h99]
    decide

/-- C4 (amended): at the runtime double values of the literals,
`formatCushionMonths(9.95) = "9.9"` — the one-decimal path is taken since the
double for `9.95` is below 10, but it also lies below the `toFixed(1)` tie,
so the rounded output stays `"9.9"` — while `formatCushionMonths(10.04) =
"10"` (the ≥ 10 path, rounded to an integer string). -/
theorem formatCushionMonths_boundary_doubles :
    formatCushionMonths (JsNum.fin double995) = "9.9"
    ∧ double995 < 10
    ∧ formatCushionMonths (JsNum.fin double1004) = "10"
    ∧ 10 ≤ double1004
    ∧ double1004 * 2 ^ 49 = 5652017532349972
    ∧ |(251 / 25 : ℚ) - double1004| < 1 / 2 ^ 50 := by
  refine ⟨?_, by norm_num [double995], ?_, by norm_num [double1004],
         by norm_num [double1004], ?_⟩
  · rw [formatCushionMonths, if_neg (by norm_num [double995]),
        if_neg (by norm_num [double995]), toFixedOneNN,
        ratFloor_eq_of (10 * double995 + 1 / 2) 99 (by norm_num [double995])
          (by norm_num [double995])]
    decide
  · rw [formatCushionMonths, if_neg (by norm_num [double1004]),
        if_pos (by norm_num [double1004]),
        jsRound_eq_of double1004 10 (by norm_num [double1004]) (by norm_num [double1004])]
    decide
  · rw [abs_sub_lt_iff]
    constructor <;> norm_num [double1004]

/-- C8: `formatCurrency` maps every non-finite input to `"$0"` and every
finite input to the en-US USD rendering of the JS-rounded whole value, with
thousands separators and no minor units; in particular
`formatCurrency(1234.6) = "$1,235"` (`1234.6 = 6173/5`). -/
theorem formatCurrency_spec (q : ℚ) :
    formatCurrency JsNum.nan = "$0"
    ∧ formatCurrency JsNum.posInf = "$0"
    ∧ formatCurrency JsNum.negInf = "$0"
    ∧ formatCurrency (JsNum.fin q) = currencyFormat ⌊q + 1 / 2⌋
    ∧ formatCurrency (JsNum.fin (6173 / 5)) = "$1,235" := by
  refine ⟨rfl, rfl, rfl, ?_, ?_⟩
  · rw [formatCurrency, jsRound_eq_floor]
  · rw [formatCurrency, jsRound_eq_of (6173 / 5) 1235 (by norm_num) (by norm_num)]
    decide

/-- C2: with `monthlyExpenses > 0` the derived `cushionMonths` equals
`(cashBalance − purchaseCost) / monthlyExpenses` exactly (in both `stats`
variants); with `monthlyExpenses = 0` it is 0 regardless of the other fields;
and in the guarded variant the result is always finite (any non-finite result
is replaced by 0). -/
theorem stats_cushionMonths_spec :
    (∀ (cb pc e : ℚ) (mi : JsNum), 0 < e →
      (stats ⟨JsNum.fin cb, mi, JsNum.fin e, JsNum.fin pc⟩).cushionMonths
          = JsNum.fin ((cb - pc) / e)
        ∧ (statsGuarded ⟨JsNum.fin cb, mi, JsNum.fin e, JsNum.fin pc⟩).cushionMonths
          = JsNum.fin ((cb - pc) / e))
    ∧ (∀ (cb mi pc : JsNum),
        (stats ⟨cb, mi, JsNum.fin 0, pc⟩).cushionMonths = JsNum.fin 0
        ∧ (statsGuarded ⟨cb, mi, JsNum.fin 0, pc⟩).cushionMonths = JsNum.fin 0)
    ∧ (∀ v : PlannerInputs, jsIsFinite (statsGuarded v).cushionMonths = true) := by
  refine ⟨fun cb pc e mi h => ?_, fun cb mi pc => ?_, fun v => ?_⟩
  · have hne : e ≠ 0 := h.ne'
    constructor
    · simp [stats, jsLt, jsSub, jsDiv, h, hne]
    · simp [statsGuarded, stats, jsLt, jsSub, jsDiv, jsIsFinite, h, hne]
  · constructor
    · simp [stats, jsLt]
    · simp [statsGuarded, stats, jsLt, jsIsFinite]
  · by_cases h : jsIsFinite (stats v).cushionMonths = true
    · simp only [statsGuarded]
      rw [if_pos h]
      exact h
    · simp only [statsGuarded]
      rw [if_neg h]
      rfl

/-- Closed instance of `stats_cushionMonths_spec` at the default inputs. -/
theorem stats_cushionMonths_spec_witness :
    (0 : ℚ) < 3200
    ∧ ((stats ⟨JsNum.fin 5000, JsNum.fin 4800, JsNum.fin 3200, JsNum.fin 1200⟩).cushionMonths
          = JsNum.fin ((5000 - 1200) / 3200)
        ∧ (statsGuarded
            ⟨JsNum.fin 5000, JsNum.fin 4800, JsNum.fin 3200, JsNum.fin 1200⟩).cushionMonths
          = JsNum.fin ((5000 - 1200) / 3200)) :=
  ⟨by norm_num,
   stats_cushionMonths_spec.1 5000 1200 3200 (JsNum.fin 4800) (by norm_num)⟩

/-- C9: the end-to-end scenario for the default inputs
`{cashBalance 5000, monthlyIncome 4800, monthlyExpenses 3200, purchaseCost
1200}`: `projectedCash = 3800`, `monthlyNet = 1600`,
`cushionMonths = 3800/3200`, zone Tight, meter 40,
`formatCushionMonths → "1.2"`, `formatCurrency(3800) = "$3,800"`. -/
theorem end_to_end_default :
    (stats ⟨JsNum.fin 5000, JsNum.fin 4800, JsNum.fin 3200, JsNum.fin 1200⟩).projectedCash
        = JsNum.fin 3800
    ∧ (stats ⟨JsNum.fin 5000, JsNum.fin 4800, JsNum.fin 3200, JsNum.fin 1200⟩).monthlyNet
        = JsNum.fin 1600
    ∧ (stats ⟨JsNum.fin 5000, JsNum.fin 4800, JsNum.fin 3200, JsNum.fin 1200⟩).cushionMonths
        = JsNum.fin (3800 / 3200)
    ∧ (getMoneyHealthZone (JsNum.fin (3800 / 3200))).key = MoneyHealthZoneKey.tight
    ∧ clampMeterValue (JsNum.fin (3800 / 3200)) = 40
    ∧ formatCushionMonths (JsNum.fin (3800 / 3200)) = "1.2"
    ∧ formatCurrency (JsNum.fin 3800) = "$3,800" := by
  have h32 : (0 : ℚ) < 3200 := by norm_num
  refine ⟨?_, ?_, ?_, ?_, ?_, ?_, ?_⟩
  · simp [stats, jsSub]
    norm_num
  · simp [stats, jsSub]
    norm_num
  · simp [stats, jsLt, jsSub, jsDiv, h32, h32.ne']
    norm_num
  · have hn : ¬ (2 : ℚ) < 3800 / 3200 := by norm_num
    have h1 : (1 : ℚ) ≤ 3800 / 3200 := by norm_num
    simp [getMoneyHealthZone, jsLt, jsLe, zoneHealthy, zoneTight, hn, h1]
  · rw [clampMeterValue, show max (0 : ℚ) (min (3800 / 3200) 3) = 3800 / 3200 by norm_num,
        jsRound_eq_of (3800 / 3200 / 3 * 100) 40 (by norm_num) (by norm_num)]
  · rw [formatCushionMonths, if_neg (by norm_num), if_neg (by norm_num),
        toFixedOneNN,
        ratFloor_eq_of (10 * (3800 / 3200) + 1 / 2) 12 (by norm_num) (by norm_num)]
    decide
  · rw [formatCurrency, jsRound_eq_of 3800 3800 (by norm_num) (by norm_num)]
    decide

/-- C5: the spec-modelled `normalizeInputs` floors all four fields at 0 —
every negative field value becomes 0 — and enforces no upper bound: any
nonnegative finite value passes through unchanged. -/
theorem normalizeInputs_floor_at_zero (raw : PlannerInputs) (q : ℚ) :
    (raw.cashBalance = JsNum.fin q → q < 0 →
      (normalizeInputs raw).cashBalance = JsNum.fin 0)
    ∧ (raw.monthlyIncome = JsNum.fin q → q < 0 →
      (normalizeInputs raw).monthlyIncome = JsNum.fin 0)
    ∧ (raw.monthlyExpenses = JsNum.fin q → q < 0 →
      (normalizeInputs raw).monthlyExpenses = JsNum.fin 0)
    ∧ (raw.purchaseCost = JsNum.fin q → q < 0 →
      (normalizeInputs raw).purchaseCost = JsNum.fin 0)
    ∧ (raw.cashBalance = JsNum.fin q → 0 ≤ q →
      (normalizeInputs raw).cashBalance = JsNum.fin q)
    ∧ (raw.monthlyIncome = JsNum.fin q → 0 ≤ q →
      (normalizeInputs raw).monthlyIncome = JsNum.fin q)
    ∧ (raw.monthlyExpenses = JsNum.fin q → 0 ≤ q →
      (normalizeInputs raw).monthlyExpenses = JsNum.fin q)
    ∧ (raw.purchaseCost = JsNum.fin q → 0 ≤ q →
      (normalizeInputs raw).purchaseCost = JsNum.fin q) := by
  refine ⟨fun h hq => ?_, fun h hq => ?_, fun h hq => ?_, fun h hq => ?_,
         fun h hq => ?_, fun h hq => ?_, fun h hq => ?_, fun h hq => ?_⟩
  · simp [normalizeInputs, normalizeField, h, max_eq_left hq.le]
  · simp [normalizeInputs, normalizeField, h, max_eq_left hq.le]
  · simp [normalizeInputs, normalizeField, h, max_eq_left hq.le]
  · simp [normalizeInputs, normalizeField, h, max_eq_left hq.le]
  · simp [normalizeInputs, normalizeField, h, max_eq_right hq]
  · simp [normalizeInputs, normalizeField, h, max_eq_right hq]
  · simp [normalizeInputs, normalizeField, h, max_eq_right hq]
  · simp [normalizeInputs, normalizeField, h, max_eq_right hq]

/-- Closed instance of `normalizeInputs_floor_at_zero` at concrete inputs. -/
theorem normalizeInputs_floor_at_zero_witness :
    (-5 : ℚ) < 0
    ∧ (normalizeInputs
        ⟨JsNum.fin (-5), JsNum.fin 4800, JsNum.fin 3200, JsNum.fin 1200⟩).cashBalance
      = JsNum.fin 0
    ∧ (0 : ℚ) ≤ 250000
    ∧ (normalizeInputs
        ⟨JsNum.fin 5000, JsNum.fin 4800, JsNum.fin 3200, JsNum.fin 250000⟩).purchaseCost
      = JsNum.fin 250000 :=
  ⟨by norm_num,
   (normalizeInputs_floor_at_zero
      ⟨JsNum.fin (-5), JsNum.fin 4800, JsNum.fin 3200, JsNum.fin 1200⟩ (-5)).1
     rfl (by norm_num),
   by norm_num,
   (normalizeInputs_floor_at_zero
      ⟨JsNum.fin 5000, JsNum.fin 4800, JsNum.fin 3200, JsNum.fin 250000⟩
      250000).2.2.2.2.2.2.2 rfl (by norm_num)⟩

/-- C6 counterexample: a payload whose email fails the `EMAIL_REGEX`
`local@domain.tld` pattern (`"not-an-email"`) is NOT rejected by the
subscribe route — with ConvertKit configured, the handler reaches the
outbound network call instead of returning 400. -/
theorem subscribe_pattern_not_enforced :
    emailRegexTest "not-an-email" = false
    ∧ postOutcome (some (JsonVal.jstr "not-an-email")) ⟨some "key", some "form"⟩
        = PostOutcome.outboundCall := by
  decide

/-- C6 (amended): the subscribe route rejects with 400, before any outbound
call, exactly the payloads whose `email` is not a nonempty string; the
`local@domain.tld` pattern itself is enforced only client-side, where the
capture form cannot submit unless the trimmed email matches `EMAIL_REGEX`. -/
theorem subscribe_email_gate (e : Option JsonVal) (env : SubscribeEnv)
    (name email : String) :
    (emailGuardPasses e = false →
      postOutcome e env = PostOutcome.badRequest "Email is required.")
    ∧ (captureIsValid name email = true → emailRegexTest (jsTrim email) = true) := by
  constructor
  · intro h
    rw [postOutcome]
    simp [h]
  · intro h
    simp only [captureIsValid, Bool.and_eq_true] at h
    exact h.2.2

/-- Closed instance of `subscribe_email_gate` at concrete inputs. -/
theorem subscribe_email_gate_witness :
    (emailGuardPasses none = false
      ∧ postOutcome none ⟨some "k", some "f"⟩ = PostOutcome.badRequest "Email is required.")
    ∧ (captureIsValid "Ann" " ann@site.com " = true
      ∧ emailRegexTest (jsTrim " ann@site.com ") = true) :=
  ⟨⟨by decide,
    (subscribe_email_gate none ⟨some "k", some "f"⟩ "Ann" " ann@site.com ").1 (by decide)⟩,
   ⟨by decide,
    (subscribe_email_gate none ⟨some "k", some "f"⟩ "Ann" " ann@site.com ").2 (by decide)⟩⟩
